import Mathlib

/-!
# flock.c : a verification development

Shallow embedding of `src/flock.c` (the whole program is the function `main`).

The program is a sequence of system calls whose results decide the control
flow.  The embedding makes the operating system an explicit script (`Env`):
every call that `main` makes reads its result from the script and is logged in
a trace of `Event`s, in program order.  The body of `main` is cut into its
consecutive phases, each a Lean function named after what the lines do:

* `parseOpts`   lines 77-117  (the `getopt_long` loop)
* `openLock`    lines 120-154 (opening the lock file)
* `armTimeout`  lines 156-168 (`sigaction` + `setitimer`)
* `acquire`     lines 170-186 (the `flock` retry loop)
* `disarm`      lines 192-200 (restoring timer and handler)
* `supervise`   lines 202-249 (`fork`, `execvp`, the `waitpid` loop, decoding)
* `main`        lines 67-251  (the composition)

Numeric constants that come from system headers (`<sysexits.h>`, `<errno.h>`,
`<sys/file.h>`, `<fcntl.h>`, `<sys/wait.h>`) carry their Linux/glibc values.
The `double` read by `strtod` is taken as an exact rational.  The value that
`main` passes to `exit` (or returns) is the exit status of the model; the
`atexit` handler `close_stdout` only reports stream write errors and is not
part of `main`.
-/

namespace Flock

/-! ## Constants of the system headers -/

/-- Constant `EXIT_FAILURE` of `<stdlib.h>`. -/
def EXIT_FAILURE : Int := 1
/-- Constant `EX_OK` of `<sysexits.h>`. -/
def EX_OK : Int := 0
/-- Constant `EX_USAGE` of `<sysexits.h>`. -/
def EX_USAGE : Int := 64
/-- Constant `EX_DATAERR` of `<sysexits.h>`. -/
def EX_DATAERR : Int := 65
/-- Constant `EX_NOINPUT` of `<sysexits.h>`. -/
def EX_NOINPUT : Int := 66
/-- Constant `EX_OSERR` of `<sysexits.h>`. -/
def EX_OSERR : Int := 71
/-- Constant `EX_CANTCREAT` of `<sysexits.h>`. -/
def EX_CANTCREAT : Int := 73

/-- Constant `EINTR` of `<errno.h>`. -/
def EINTR : Int := 4
/-- Constant `EIO` of `<errno.h>`. -/
def EIO : Int := 5
/-- Constant `EBADF` of `<errno.h>`. -/
def EBADF : Int := 9
/-- Constant `ECHILD` of `<errno.h>`. -/
def ECHILD : Int := 10
/-- Constant `EWOULDBLOCK` of `<errno.h>` (the same number as `EAGAIN`). -/
def EWOULDBLOCK : Int := 11
/-- Constant `ENOMEM` of `<errno.h>`. -/
def ENOMEM : Int := 12
/-- Constant `EISDIR` of `<errno.h>`. -/
def EISDIR : Int := 21
/-- Constant `ENFILE` of `<errno.h>`. -/
def ENFILE : Int := 23
/-- Constant `EMFILE` of `<errno.h>`. -/
def EMFILE : Int := 24
/-- Constant `ENOSPC` of `<errno.h>`. -/
def ENOSPC : Int := 28
/-- Constant `EROFS` of `<errno.h>`. -/
def EROFS : Int := 30
/-- Constant `ENOLCK` of `<errno.h>`. -/
def ENOLCK : Int := 37

/-- Constant `LOCK_SH` of `<sys/file.h>`. -/
def LOCK_SH : Nat := 1
/-- Constant `LOCK_EX` of `<sys/file.h>`. -/
def LOCK_EX : Nat := 2
/-- Constant `LOCK_NB` of `<sys/file.h>`. -/
def LOCK_NB : Nat := 4

/-- Constant `O_RDONLY` of `<fcntl.h>`. -/
def O_RDONLY : Nat := 0
/-- Constant `O_WRONLY` of `<fcntl.h>`. -/
def O_WRONLY : Nat := 1
/-- Constant `O_CREAT` of `<fcntl.h>`. -/
def O_CREAT : Nat := 64
/-- Constant `O_NOCTTY` of `<fcntl.h>`. -/
def O_NOCTTY : Nat := 256

/-- Constant `_PATH_BSHELL` of `<paths.h>`. -/
def _PATH_BSHELL : String := "/bin/sh"

/-- Line 53: `int status_time_conflict = EXIT_FAILURE;` (never assigned again). -/
def status_time_conflict : Int := EXIT_FAILURE

/-! ## Wait-status macros of `<sys/wait.h>` (glibc `bits/waitstatus.h`) -/

/-- Macro `WEXITSTATUS(status)` is `((status) & 0xff00) >> 8`. -/
def WEXITSTATUS (status : Nat) : Nat := (status &&& 0xff00) >>> 8

/-- Macro `WTERMSIG(status)` is `(status) & 0x7f`. -/
def WTERMSIG (status : Nat) : Nat := status &&& 0x7f

/-- Macro `WIFEXITED(status)` is `WTERMSIG(status) == 0`. -/
def WIFEXITED (status : Nat) : Bool := WTERMSIG status == 0

/-- Macro `WIFSIGNALED(status)` is
`((signed char) (((status) & 0x7f) + 1) >> 1) > 0`: the sum is converted to a
signed 8-bit value and shifted arithmetically. -/
def WIFSIGNALED (status : Nat) : Bool :=
  let x : Int := ((status &&& 0x7f) + 1 : Nat)
  let sc : Int := if 128 ≤ x then x - 256 else x
  decide (0 < sc >>> 1)

/-- Macro `__W_EXITCODE(ret, sig)` is `(ret) << 8 | (sig)`: the wait status that the
kernel reports for a child that called `exit(ret)` (with `sig = 0`). -/
def W_EXITCODE (ret sig : Nat) : Nat := (ret <<< 8) ||| sig

/-- The wait status of a child killed by signal `sig`; bit `0x80`
(`__WCOREFLAG`) says whether a core was dumped. -/
def W_SIGNALED (sig : Nat) (core : Bool) : Nat := sig ||| (if core then 0x80 else 0)

/-! ## The operating system as a script -/

/-- One system call made by `main`, with the arguments that matter. -/
inductive Event where
  | access (path : String)
  | gettimeofday
  | printf
  | open_ (path : String) (flags : Nat)
  | sigaction
  | setitimer (sec usec : Int)
  | flock (fd : Int) (op : Nat)
  | restoreTimer
  | restoreSigaction
  | signalChld
  | fork
  | execvp (argv : List String)
  | waitpid (pid : Int)
  deriving DecidableEq, Repr

/-- How a run ends: `exit`/`return` with a status, blocked for ever inside a
system call that never returns (the script has no further result), or the
process image replaced by a successful `execvp` (the forked child). -/
inductive Term where
  | exit (status : Int)
  | blocked
  | replaced
  deriving DecidableEq, Repr

/-- A run of the program: how it ends and the calls it made. -/
structure Run where
  term : Term
  trace : List Event
  deriving DecidableEq, Repr

/-- The run `r` preceded by the calls `tr`. -/
def Run.after (tr : List Event) (r : Run) : Run := ⟨r.term, tr ++ r.trace⟩

/-- One return of `getopt_long`: the option character and `optarg`. -/
structure OptRet where
  opt : Char
  optarg : String
  deriving DecidableEq, Repr

/-- One return of `flock(2)`: the return value, `errno`, and the value of the
global `timeout_expired` when the call returns. -/
structure Attempt where
  ret : Int
  errno : Int
  expired : Bool
  deriving DecidableEq, Repr

/-- One return of `waitpid(2)`: the return value, `errno`, and the wait status
stored through the pointer when a process was reaped. -/
structure WaitRes where
  w : Int
  errno : Int
  wstatus : Nat
  deriving DecidableEq, Repr

/-- The results of every call `main` can make. -/
structure Env where
  /-- Result of `atexit(close_stdout)`. -/
  atexitRet : Int
  argc : Int
  /-- Successive returns of `getopt_long` before it returns `-1`. -/
  opts : List OptRet
  /-- Value of `getenv("SHELL")`. -/
  shell : Option String
  /-- Value of `strtod(optarg, NULL)`, as an exact rational. -/
  strtod : String → ℚ
  /-- Result of `access(filename, W_OK)`. -/
  accessRet : Int
  /-- First `open`: descriptor and `errno`. -/
  open1 : Int × Int
  /-- Second `open` (after `EISDIR`): descriptor and `errno`. -/
  open2 : Int × Int
  sigactionRet : Int
  setitimerRet : Int
  flocks : List Attempt
  restoreTimerRet : Int
  restoreSigactionRet : Int
  forkRet : Int
  /-- Value of `errno` after a failed `execvp`, `none` when it succeeds. -/
  execvpErrno : Option Int
  waits : List WaitRes

/-! ## Lines 48-66 and 77-117: local variables and option parsing -/

/-- The local variables of `main` that the option loop sets. -/
structure Config where
  type : Nat
  have_timeout : Bool
  verbose : Bool
  block : Nat
  filename : Option String
  cmd_argv : Option (List String)
  tv_sec : Int
  tv_usec : Int
  deriving DecidableEq, Repr

/-- Lines 49-64 and 75: the initial values (`memset(&timer, 0, ...)`). -/
def Config.init : Config :=
  { type := LOCK_EX, have_timeout := false, verbose := false, block := 0,
    filename := none, cmd_argv := none, tv_sec := 0, tv_usec := 0 }

/-- The C conversion of a real to an integer type: truncation toward zero. -/
def truncQ (x : ℚ) : Int := if 0 ≤ x then ⌊x⌋ else ⌈x⌉

/-- Lines 110-111: `tv_sec = (time_t) raw_timeval` and
`tv_usec = (suseconds_t) ((raw_timeval - tv_sec) * 1000000)`. -/
def itimerOf (raw_timeval : ℚ) : Int × Int :=
  let tv_sec := truncQ raw_timeval
  (tv_sec, truncQ ((raw_timeval - tv_sec) * 1000000))

/-- Lines 78-116: the body of the option loop for one return of
`getopt_long`; `Except.error` is the `errx(EX_USAGE, ...)` of line 109. -/
def optStep (e : Env) (c : Config) (o : OptRet) : Except Int Config :=
  if o.opt = 'c' then
    let sh := match e.shell with
      | none => _PATH_BSHELL
      | some s => if s.isEmpty then _PATH_BSHELL else s
    .ok { c with cmd_argv := some [sh, "-c", o.optarg] }
  else if o.opt = 'l' then .ok { c with filename := some o.optarg }
  else if o.opt = 's' then .ok { c with type := LOCK_SH }
  else if o.opt = 'x' then .ok { c with type := LOCK_EX }
  else if o.opt = 'n' then .ok { c with block := LOCK_NB }
  else if o.opt = 'v' then .ok { c with verbose := true }
  else if o.opt = 'w' then
    let raw_timeval := e.strtod o.optarg
    if 0 ≥ raw_timeval then .error EX_USAGE
    else
      let t := itimerOf raw_timeval
      .ok { c with have_timeout := true, tv_sec := t.1, tv_usec := t.2 }
  else .ok c

/-- Lines 77-117: the loop over the returns of `getopt_long`. -/
def parseOpts (e : Env) : Config → List OptRet → Except Int Config
  | c, [] => .ok c
  | c, o :: rest =>
    match optStep e c o with
    | .error code => .error code
    | .ok c' => parseOpts e c' rest

/-! ## Lines 120-154: opening the lock file -/

/-- Lines 142-152: the exit status chosen from `errno` when `open` failed. -/
def openErrCode (errno : Int) : Int :=
  if errno = ENOMEM ∨ errno = EMFILE ∨ errno = ENFILE then EX_OSERR
  else if errno = EROFS ∨ errno = ENOSPC then EX_CANTCREAT
  else EX_NOINPUT

/-- Lines 120-154: the calls made and either the descriptor (`-1` when no
file name was given, line 61) or the exit status. -/
def openLock (e : Env) (c : Config) : List Event × Except Int Int :=
  match c.filename with
  | none => ([], .ok (-1))
  | some filename =>
    let sh := c.type = LOCK_SH
    let t1 := if sh then [] else [Event.access filename]
    let open_flags :=
      if sh ∨ e.accessRet ≠ 0 then O_RDONLY ||| O_NOCTTY ||| O_CREAT
      else O_WRONLY ||| O_NOCTTY ||| O_CREAT
    let t2 := if c.verbose then [Event.gettimeofday, Event.printf] else []
    let t3 := [Event.open_ filename open_flags]
    let retry := e.open1.1 < 0 ∧ e.open1.2 = EISDIR
    let t4 := if retry then [Event.open_ filename (O_RDONLY ||| O_NOCTTY)] else []
    let r := if retry then e.open2 else e.open1
    if r.1 < 0 then (t1 ++ t2 ++ t3 ++ t4, .error (openErrCode r.2))
    else (t1 ++ t2 ++ t3 ++ t4, .ok r.1)

/-! ## Lines 156-168: arming the timeout -/

/-- Lines 156-168: `none` when the run goes on, `some status` on `err`. -/
def armTimeout (e : Env) (c : Config) : List Event × Option Int :=
  if c.have_timeout then
    if e.sigactionRet ≠ 0 then ([Event.sigaction], some EX_OSERR)
    else if e.setitimerRet ≠ 0 then
      ([Event.sigaction, Event.setitimer c.tv_sec c.tv_usec], some EX_OSERR)
    else ([Event.sigaction, Event.setitimer c.tv_sec c.tv_usec], none)
  else ([], none)

/-! ## Lines 170-186: the acquisition loop -/

/-- The way the loop of lines 170-186 is left. -/
inductive LoopExit where
  /-- Call returned 0: the `while` condition is false. -/
  | acquired
  /-- Line 173, `case EWOULDBLOCK`. -/
  | wouldBlock
  /-- Line 176, `case EINTR` with `timeout_expired` set. -/
  | timedOut
  /-- Line 181, `case EIO: case ENOLCK`. -/
  | osError
  /-- Line 184, `default`. -/
  | dataError
  /-- The call never returns. -/
  | blocked
  deriving DecidableEq, Repr

/-- Lines 170-186: `while (0 != flock(fd, type | block)) switch (errno) ...`.
Every iteration calls `flock` with the same descriptor and operation; the
results are read from the script. -/
def acquire (fd : Int) (op : Nat) : List Attempt → List Event × LoopExit
  | [] => ([Event.flock fd op], .blocked)
  | a :: rest =>
    if a.ret = 0 then ([Event.flock fd op], .acquired)
    else if a.errno = EWOULDBLOCK then ([Event.flock fd op], .wouldBlock)
    else if a.errno = EINTR then
      if a.expired then ([Event.flock fd op], .timedOut)
      else
        let r := acquire fd op rest
        (Event.flock fd op :: r.1, r.2)
    else if a.errno = EIO ∨ a.errno = ENOLCK then ([Event.flock fd op], .osError)
    else ([Event.flock fd op, Event.printf], .dataError)

/-! ## Lines 192-200: restoring the timer and the handler -/

/-- Lines 192-200: `none` when the run goes on, `some status` on `err`. -/
def disarm (e : Env) (c : Config) : List Event × Option Int :=
  if c.have_timeout then
    if e.restoreTimerRet ≠ 0 then ([Event.restoreTimer], some EX_OSERR)
    else if e.restoreSigactionRet ≠ 0 then
      ([Event.restoreTimer, Event.restoreSigaction], some EX_OSERR)
    else ([Event.restoreTimer, Event.restoreSigaction], none)
  else ([], none)

/-! ## Lines 202-249: running the command -/

/-- Lines 229-234: `do { w = waitpid(f, &status, 0); if (-1 == w && errno !=
EINTR) break; } while (w != f);`.  The result is the final `w` and `status`,
or `none` when a call never returns.  The status is stored when a process was
reaped. -/
def waitLoop (f : Int) (status : Nat) : List WaitRes → List Event × Option (Int × Nat)
  | [] => ([Event.waitpid f], none)
  | r :: rest =>
    let status' := if 0 < r.w then r.wstatus else status
    if r.w = -1 ∧ r.errno ≠ EINTR then ([Event.waitpid f], some (r.w, status'))
    else if r.w ≠ f then
      let q := waitLoop f status' rest
      (Event.waitpid f :: q.1, q.2)
    else ([Event.waitpid f], some (r.w, status'))

/-- Lines 239-247: the exit status decoded from the wait status of the
child. -/
def decodeStatus (status : Nat) : Int :=
  if WIFEXITED status then (WEXITSTATUS status : Int)
  else if WIFSIGNALED status then (WTERMSIG status : Int) + 128
  else EX_OSERR

/-- Lines 236-247 and 251: the status the parent ends with after the wait
loop: `err(EXIT_FAILURE, ...)` when `w` is `-1`, else the decoded status, which
`main` returns. -/
def childStatus (w : Int) (status : Nat) : Int :=
  if w = -1 then EXIT_FAILURE else decodeStatus status

/-- Lines 202-251.  Without a command `main` returns `status`, still `EX_OK`.
With a command: `signal`, `fork`; the child (`f == 0`) calls `execvp`
(`close_before_exec` is never set); the parent waits and decodes. -/
def supervise (e : Env) (c : Config) : Run :=
  match c.cmd_argv with
  | none => ⟨.exit EX_OK, []⟩
  | some argv =>
    let f := e.forkRet
    if f < 0 then ⟨.exit EX_OSERR, [Event.signalChld, Event.fork]⟩
    else if f = 0 then
      let t := [Event.signalChld, Event.fork] ++
        (if c.verbose then [Event.printf] else []) ++ [Event.execvp argv]
      match e.execvpErrno with
      | none => ⟨.replaced, t⟩
      | some errno =>
        if errno = EIO ∨ errno = ENOMEM then ⟨.exit EX_OSERR, t⟩
        else ⟨.exit EX_NOINPUT, t⟩
    else
      let q := waitLoop f 0 e.waits
      match q.2 with
      | none => ⟨.blocked, [Event.signalChld, Event.fork] ++ q.1⟩
      | some (w, status) =>
        ⟨.exit (childStatus w status), [Event.signalChld, Event.fork] ++ q.1⟩

/-! ## The whole of `main` -/

/-- Lines 67-168: everything before the lock loop.  The result is the exit
status when the run ends here, else the configuration and the descriptor
`fd` with which the loop is entered. -/
def setup (e : Env) : List Event × Except Int (Config × Int) :=
  if e.atexitRet ≠ 0 then ([], .error EX_OSERR)
  else if e.argc < 2 then ([], .error EX_USAGE)
  else
    match parseOpts e Config.init e.opts with
    | .error code => ([], .error code)
    | .ok c =>
      match openLock e c with
      | (t1, .error code) => (t1, .error code)
      | (t1, .ok fd) =>
        match armTimeout e c with
        | (t2, some code) => (t1 ++ t2, .error code)
        | (t2, none) => (t1 ++ t2, .ok (c, fd))

/-- Lines 187-251: what follows a successful `flock`. -/
def afterLock (e : Env) (c : Config) : Run :=
  let tv := if c.verbose then [Event.gettimeofday, Event.printf] else []
  match disarm e c with
  | (t, some code) => ⟨.exit code, tv ++ t⟩
  | (t, none) => (supervise e c).after (tv ++ t)

/-- Lines 170-251: the lock loop and what follows it. -/
def lockAndRun (e : Env) (c : Config) (fd : Int) : Run :=
  let a := acquire fd (c.type ||| c.block) e.flocks
  match a.2 with
  | .acquired => (afterLock e c).after a.1
  | .wouldBlock => ⟨.exit status_time_conflict, a.1⟩
  | .timedOut => ⟨.exit status_time_conflict, a.1⟩
  | .osError => ⟨.exit EX_OSERR, a.1⟩
  | .dataError => ⟨.exit EX_DATAERR, a.1⟩
  | .blocked => ⟨.blocked, a.1⟩

/-- The function `main` of `flock.c`. -/
def main (e : Env) : Run :=
  match setup e with
  | (t, .error code) => ⟨.exit code, t⟩
  | (t, .ok (c, fd)) => (lockAndRun e c fd).after t

/-! ## Vocabulary of the statements -/

/-- An attempt that failed with `EINTR` while `timeout_expired` was clear. -/
def Attempt.spurious (a : Attempt) : Prop :=
  a.ret ≠ 0 ∧ a.errno = EINTR ∧ a.expired = false

instance (a : Attempt) : Decidable a.spurious := by
  unfold Attempt.spurious; infer_instance

/-- The lock attempts. -/
def Event.isFlock : Event → Bool
  | .flock _ _ => true
  | _ => false

/-- The calls of the child supervisor (lines 202-249). -/
def Event.isChildOp : Event → Bool
  | .signalChld => true
  | .fork => true
  | .execvp _ => true
  | .waitpid _ => true
  | _ => false

/-! ## Concrete scripts -/

/-- Script of `flock -l /tmp/lock`: the file opens as descriptor 3 and the
first lock attempt succeeds. -/
def envLockOnly : Env :=
  { atexitRet := 0, argc := 3, opts := [⟨'l', "/tmp/lock"⟩], shell := none,
    strtod := fun _ => 0, accessRet := 0, open1 := (3, 0), open2 := (-1, 0),
    sigactionRet := 0, setitimerRet := 0, flocks := [⟨0, 0, false⟩],
    restoreTimerRet := 0, restoreSigactionRet := 0, forkRet := 100,
    execvpErrno := none, waits := [] }

/-- Configuration reached by `envLockOnly`. -/
def cfgLockOnly : Config :=
  { type := LOCK_EX, have_timeout := false, verbose := false, block := 0,
    filename := some "/tmp/lock", cmd_argv := none, tv_sec := 0, tv_usec := 0 }

/-- Script of `flock -l /tmp/lock -c "exit 7"`: the child is process 100, the
first wait is interrupted, the second collects exit code 7. -/
def envExit7 : Env :=
  { envLockOnly with
    argc := 5, opts := [⟨'l', "/tmp/lock"⟩, ⟨'c', "exit 7"⟩],
    waits := [⟨-1, EINTR, 0⟩, ⟨100, 0, W_EXITCODE 7 0⟩] }

/-- Configuration reached by `envExit7`. -/
def cfgExit7 : Config :=
  { cfgLockOnly with cmd_argv := some ["/bin/sh", "-c", "exit 7"] }

/-- Script of a run whose child is killed by signal 9. -/
def envKill9 : Env :=
  { envLockOnly with
    argc := 5, opts := [⟨'l', "/tmp/lock"⟩, ⟨'c', "sleep 60"⟩],
    waits := [⟨100, 0, W_SIGNALED 9 false⟩] }

/-- Configuration reached by `envKill9`. -/
def cfgKill9 : Config :=
  { cfgLockOnly with cmd_argv := some ["/bin/sh", "-c", "sleep 60"] }

/-- Script of `flock -n -l /tmp/lock -c "true"` against a held lock. -/
def envWouldBlock : Env :=
  { envLockOnly with
    argc := 6, opts := [⟨'n', ""⟩, ⟨'l', "/tmp/lock"⟩, ⟨'c', "true"⟩],
    flocks := [⟨-1, EWOULDBLOCK, false⟩] }

/-- Configuration reached by `envWouldBlock`. -/
def cfgWouldBlock : Config :=
  { cfgLockOnly with block := LOCK_NB, cmd_argv := some ["/bin/sh", "-c", "true"] }

/-- Script of `flock -w 1.5 -l /tmp/lock -c "true"` against a held lock: an
unrelated signal interrupts the first attempt, the timer the second. -/
def envTimedOut : Env :=
  { envLockOnly with
    argc := 7, opts := [⟨'w', "1.5"⟩, ⟨'l', "/tmp/lock"⟩, ⟨'c', "true"⟩],
    strtod := fun _ => 3 / 2,
    flocks := [⟨-1, EINTR, false⟩, ⟨-1, EINTR, true⟩] }

/-- Configuration reached by `envTimedOut`. -/
def cfgTimedOut : Config :=
  { cfgLockOnly with
    have_timeout := true, tv_sec := 1, tv_usec := 500000,
    cmd_argv := some ["/bin/sh", "-c", "true"] }

/-- Script of `flock -w 1.5 -n -l /tmp/lock` against a held lock; the flag
happens to be set when the attempt returns. -/
def envWouldBlockTimed : Env :=
  { envLockOnly with
    argc := 6, opts := [⟨'w', "1.5"⟩, ⟨'n', ""⟩, ⟨'l', "/tmp/lock"⟩],
    strtod := fun _ => 3 / 2,
    flocks := [⟨-1, EWOULDBLOCK, true⟩, ⟨0, 0, true⟩] }

/-- Configuration reached by `envWouldBlockTimed`. -/
def cfgWouldBlockTimed : Config :=
  { cfgLockOnly with
    have_timeout := true, tv_sec := 1, tv_usec := 500000, block := LOCK_NB }

/-- Script of `flock -x`: no file name, so `fd` stays `-1` and `flock(2)`
fails with `EBADF`. -/
def envBadFd : Env :=
  { envLockOnly with
    argc := 2, opts := [⟨'x', ""⟩], flocks := [⟨-1, EBADF, false⟩] }

/-- Configuration reached by `envBadFd`. -/
def cfgBadFd : Config := { cfgLockOnly with filename := none }

/-- Script of a run where `flock(2)` fails with `ENOLCK` after one spurious
interruption. -/
def envNoLock : Env :=
  { envLockOnly with flocks := [⟨-1, EINTR, false⟩, ⟨-1, ENOLCK, false⟩] }

/-- Script of a run whose `waitpid` fails with `ECHILD`. -/
def envWaitFails : Env :=
  { envLockOnly with
    argc := 5, opts := [⟨'l', "/tmp/lock"⟩, ⟨'c', "true"⟩],
    waits := [⟨-1, ECHILD, 0⟩] }

/-- Script of `flock -w 1.5 -l /tmp/lock` on a free lock where restoring the
previous interval timer fails. -/
def envRestoreFails : Env :=
  { envLockOnly with
    argc := 5, opts := [⟨'w', "1.5"⟩, ⟨'l', "/tmp/lock"⟩], strtod := fun _ => 3 / 2,
    restoreTimerRet := -1 }

/-- Script of `flock -w 1.5 -l /tmp/lock` on a free lock, every call
succeeding. -/
def envTimedLock : Env :=
  { envLockOnly with
    argc := 5, opts := [⟨'w', "1.5"⟩, ⟨'l', "/tmp/lock"⟩], strtod := fun _ => 3 / 2,
    flocks := [⟨0, 0, true⟩] }

/-- Configuration reached by `envRestoreFails` and `envTimedLock`. -/
def cfgTimed : Config :=
  { cfgLockOnly with have_timeout := true, tv_sec := 1, tv_usec := 500000 }

/-- Script of `flock -w 0.0000001 -l /tmp/lock` against a lock that is never
released: no signal arrives, so the blocking `flock(2)` never returns. -/
def envTinyTimeout : Env :=
  { envLockOnly with
    argc := 5, opts := [⟨'w', "0.0000001"⟩, ⟨'l', "/tmp/lock"⟩],
    strtod := fun _ => 1 / 10000000, flocks := [] }

/-! ## The acquisition loop -/

theorem acquire_spurious_cons (fd : Int) (op : Nat) (a : Attempt) (l : List Attempt)
    (ha : a.spurious) :
    acquire fd op (a :: l) = (Event.flock fd op :: (acquire fd op l).1, (acquire fd op l).2) := by
  obtain ⟨h1, h2, h3⟩ := ha
  simp [acquire, h1, h2, h3, EINTR, EWOULDBLOCK]

theorem acquire_spurious_append (fd : Int) (op : Nat) (pre l : List Attempt)
    (hpre : ∀ x ∈ pre, x.spurious) :
    acquire fd op (pre ++ l) =
      (List.replicate pre.length (Event.flock fd op) ++ (acquire fd op l).1,
        (acquire fd op l).2) := by
  induction pre with
  | nil => simp
  | cons a pre ih =>
    have ha : a.spurious := hpre a (List.mem_cons_self _ _)
    have ih' := ih (fun x hx => hpre x (List.mem_cons_of_mem _ hx))
    rw [List.cons_append, acquire_spurious_cons fd op a _ ha, ih']
    simp [List.replicate_succ]

theorem acquire_trace_head (fd : Int) (op : Nat) (l : List Attempt) :
    ∃ tail, (acquire fd op l).1 = Event.flock fd op :: tail := by
  cases l with
  | nil => exact ⟨[], rfl⟩
  | cons a rest =>
    unfold acquire
    split_ifs <;> simp

theorem acquire_timedOut_iff (fd : Int) (op : Nat) (l : List Attempt) :
    (acquire fd op l).2 = LoopExit.timedOut ↔
      ∃ pre a rest, l = pre ++ a :: rest ∧ (∀ x ∈ pre, x.spurious) ∧
        a.ret ≠ 0 ∧ a.errno = EINTR ∧ a.expired = true := by
  induction l with
  | nil => simp [acquire]
  | cons b l ih =>
    constructor
    · intro h
      by_cases hb : b.spurious
      · rw [acquire_spurious_cons fd op b l hb] at h
        obtain ⟨pre, a, rest, hl, hpre, ha⟩ := ih.mp h
        refine ⟨b :: pre, a, rest, by simp [hl], ?_, ha⟩
        intro x hx
        rcases List.mem_cons.mp hx with rfl | hx
        · exact hb
        · exact hpre x hx
      · refine ⟨[], b, l, rfl, by simp, ?_⟩
        unfold acquire at h
        unfold Attempt.spurious at hb
        split_ifs at h <;> simp_all
    · rintro ⟨pre, a, rest, hl, hpre, ha1, ha2, ha3⟩
      rw [hl, acquire_spurious_append fd op pre _ hpre]
      simp [acquire, ha1, ha2, ha3, EINTR, EWOULDBLOCK]

/-! ## From the phases to `main` -/

theorem main_of_setup (e : Env) (t : List Event) (c : Config) (fd : Int)
    (hs : setup e = (t, .ok (c, fd))) : main e = (lockAndRun e c fd).after t := by
  simp [main, hs]

theorem openLock_trace (e : Env) (c : Config) :
    ∀ ev ∈ (openLock e c).1, ev.isChildOp = false ∧ ev.isFlock = false := by
  have h : (openLock e c).1.all (fun ev => !ev.isChildOp && !ev.isFlock) = true := by
    unfold openLock
    split
    · rfl
    · simp only []
      split_ifs <;> simp [Event.isChildOp, Event.isFlock]
  intro ev hev
  have := List.all_eq_true.mp h ev hev
  simpa using this

theorem armTimeout_trace (e : Env) (c : Config) :
    ∀ ev ∈ (armTimeout e c).1, ev.isChildOp = false ∧ ev.isFlock = false := by
  have h : (armTimeout e c).1.all (fun ev => !ev.isChildOp && !ev.isFlock) = true := by
    unfold armTimeout
    split_ifs <;> simp [Event.isChildOp, Event.isFlock]
  intro ev hev
  have := List.all_eq_true.mp h ev hev
  simpa using this

theorem setup_trace (e : Env) (t : List Event) (c : Config) (fd : Int)
    (hs : setup e = (t, .ok (c, fd))) :
    ∀ ev ∈ t, ev.isChildOp = false ∧ ev.isFlock = false := by
  unfold setup at hs
  split_ifs at hs
  · simp at hs
  · simp at hs
  · split at hs
    · simp at hs
    · rename_i c' hp
      split at hs
      · simp at hs
      · rename_i t1 fd' ho
        split at hs
        · simp at hs
        · rename_i t2 ha
          simp only [Prod.mk.injEq, Except.ok.injEq] at hs
          obtain ⟨rfl, rfl, rfl⟩ := hs
          intro ev hev
          rcases List.mem_append.mp hev with h | h
          · exact openLock_trace e c' ev (by rw [ho]; exact h)
          · exact armTimeout_trace e c' ev (by rw [ha]; exact h)

theorem acquire_skip_last (fd : Int) (op : Nat) (pre : List Attempt) (a : Attempt)
    (rest : List Attempt) (hpre : ∀ x ∈ pre, x.spurious)
    (ha : (acquire fd op (a :: rest)).1 = [Event.flock fd op]) :
    acquire fd op (pre ++ a :: rest) =
      (List.replicate (pre.length + 1) (Event.flock fd op), (acquire fd op (a :: rest)).2) := by
  rw [acquire_spurious_append fd op pre _ hpre, ha, List.replicate_succ']

theorem afterLock_of_disarm (e : Env) (c : Config) (hdis : (disarm e c).2 = none) :
    afterLock e c =
      (supervise e c).after
        ((if c.verbose then [Event.gettimeofday, Event.printf] else []) ++ (disarm e c).1) := by
  unfold afterLock
  cases h : disarm e c with
  | mk t o =>
    rw [h] at hdis
    simp only at hdis
    subst hdis
    rfl

theorem disarm_none_of_restored (e : Env) (c : Config)
    (h : c.have_timeout = true → e.restoreTimerRet = 0 ∧ e.restoreSigactionRet = 0) :
    (disarm e c).2 = none := by
  unfold disarm
  by_cases ht : c.have_timeout = true
  · obtain ⟨h1, h2⟩ := h ht
    simp [ht, h1, h2]
  · simp [ht]

/-! ## The wait loop -/

theorem waitLoop_skip_append (f : Int) (pre l : List WaitRes)
    (hpre : ∀ x ∈ pre, x.w ≠ f ∧ ¬ (x.w = -1 ∧ x.errno ≠ EINTR)) (st : Nat) :
    ∃ st', waitLoop f st (pre ++ l) =
      (List.replicate pre.length (Event.waitpid f) ++ (waitLoop f st' l).1,
        (waitLoop f st' l).2) := by
  induction pre generalizing st with
  | nil => exact ⟨st, by simp⟩
  | cons x pre ih =>
    obtain ⟨hx1, hx2⟩ := hpre x (List.mem_cons_self _ _)
    obtain ⟨st', h⟩ := ih (fun y hy => hpre y (List.mem_cons_of_mem _ hy))
      (if 0 < x.w then x.wstatus else st)
    refine ⟨st', ?_⟩
    rw [List.cons_append, waitLoop]
    simp only [hx2, hx1, if_false, ne_eq, not_false_eq_true, if_true]
    rw [h]
    simp [List.replicate_succ]

theorem waitLoop_stop (f : Int) (hf : 0 < f) (st : Nat) (r : WaitRes) (rest : List WaitRes)
    (hr : r.w = f ∨ (r.w = -1 ∧ r.errno ≠ EINTR)) :
    ∃ s, waitLoop f st (r :: rest) = ([Event.waitpid f], some (r.w, s)) ∧
      (r.w = f → s = r.wstatus) := by
  rcases hr with hr | hr
  · refine ⟨r.wstatus, ?_, fun _ => rfl⟩
    subst hr
    have h1 : ¬ (r.w = -1) := by omega
    simp [waitLoop, hf, h1]
  · refine ⟨st, ?_, ?_⟩
    · have h0 : ¬ (0 < r.w) := by omega
      simp [waitLoop, h0, hr.1, hr.2]
    · intro h; omega

/-! ## The wait-status encoding -/

set_option maxRecDepth 100000 in
theorem decode_exited : ∀ code < 256,
    WIFEXITED (W_EXITCODE code 0) = true ∧ WEXITSTATUS (W_EXITCODE code 0) = code := by
  decide

set_option maxRecDepth 100000 in
theorem decode_signaled : ∀ s < 127, 1 ≤ s → ∀ core : Bool,
    WIFEXITED (W_SIGNALED s core) = false ∧ WIFSIGNALED (W_SIGNALED s core) = true ∧
      WTERMSIG (W_SIGNALED s core) = s := by
  decide

theorem decodeStatus_exited (code : Nat) (h : code < 256) :
    decodeStatus (W_EXITCODE code 0) = code := by
  obtain ⟨h1, h2⟩ := decode_exited code h
  simp [decodeStatus, h1, h2]

theorem decodeStatus_signaled (s : Nat) (core : Bool) (h1 : 1 ≤ s) (h2 : s ≤ 126) :
    decodeStatus (W_SIGNALED s core) = 128 + s := by
  obtain ⟨h3, h4, h5⟩ := decode_signaled s (by omega) h1 core
  simp [decodeStatus, h3, h4, h5]
  omega

/-! ## The timer value -/

theorem truncQ_of_nonneg (x : ℚ) (h : 0 ≤ x) : truncQ x = ⌊x⌋ := by
  simp [truncQ, h]

theorem itimerOf_of_pos (t : ℚ) (h : 0 < t) :
    itimerOf t = (⌊t⌋, ⌊Int.fract t * 1000000⌋) := by
  have h1 : truncQ t = ⌊t⌋ := truncQ_of_nonneg t h.le
  have h2 : t - (⌊t⌋ : ℚ) = Int.fract t := rfl
  have h3 : (0 : ℚ) ≤ Int.fract t * 1000000 :=
    mul_nonneg (Int.fract_nonneg t) (by norm_num)
  simp only [itimerOf, h1, h2, truncQ_of_nonneg _ h3]

/-- For a positive timeout the microsecond field is in range, and from one
microsecond on the armed duration is not zero. -/
theorem itimerOf_range (t : ℚ) (h : 0 < t) :
    0 ≤ (itimerOf t).1 ∧ 0 ≤ (itimerOf t).2 ∧ (itimerOf t).2 < 1000000 ∧
      (1 / 1000000 ≤ t → 0 < (itimerOf t).1 ∨ 0 < (itimerOf t).2) := by
  rw [itimerOf_of_pos t h]
  have hf0 := Int.fract_nonneg t
  have hf1 := Int.fract_lt_one t
  refine ⟨Int.floor_nonneg.mpr h.le, Int.floor_nonneg.mpr (mul_nonneg hf0 (by norm_num)),
    ?_, ?_⟩
  · rw [Int.floor_lt]
    push_cast
    linarith
  · intro ht
    by_cases h0 : 0 < ⌊t⌋
    · exact Or.inl h0
    · right
      have hz : ⌊t⌋ = 0 := le_antisymm (not_lt.mp h0) (Int.floor_nonneg.mpr h.le)
      have hfr : Int.fract t = t := by
        unfold Int.fract
        rw [hz]
        simp
      show 0 < ⌊Int.fract t * 1000000⌋
      rw [hfr]
      have : (1 : ℤ) ≤ ⌊t * 1000000⌋ := by
        rw [Int.le_floor]
        push_cast
        linarith
      omega

theorem itimerOf_three_halves : itimerOf (3 / 2) = (1, 500000) := by
  have h : truncQ (3 / 2) = 1 := by
    simp only [truncQ]; norm_num [Int.floor_eq_iff]
  simp only [itimerOf, h]
  norm_num
  simp only [truncQ]; norm_num [Int.floor_eq_iff]

theorem itimerOf_tenth_of_microsecond : itimerOf (1 / 10000000) = (0, 0) := by
  have h : truncQ (1 / 10000000) = 0 := by
    simp only [truncQ]; norm_num [Int.floor_eq_iff]
  simp only [itimerOf, h]
  norm_num
  simp only [truncQ]; norm_num [Int.floor_eq_iff]

/-! ## The concrete scripts reach the lock loop -/

theorem setup_envExit7 : setup envExit7 =
    ([Event.access "/tmp/lock", Event.open_ "/tmp/lock" 321], .ok (cfgExit7, 3)) := rfl

theorem setup_envKill9 : setup envKill9 =
    ([Event.access "/tmp/lock", Event.open_ "/tmp/lock" 321], .ok (cfgKill9, 3)) := rfl

theorem setup_envLockOnly : setup envLockOnly =
    ([Event.access "/tmp/lock", Event.open_ "/tmp/lock" 321], .ok (cfgLockOnly, 3)) := rfl

theorem setup_envWouldBlock : setup envWouldBlock =
    ([Event.access "/tmp/lock", Event.open_ "/tmp/lock" 321], .ok (cfgWouldBlock, 3)) := rfl

theorem setup_envBadFd : setup envBadFd = ([], .ok (cfgBadFd, -1)) := rfl

theorem setup_envNoLock : setup envNoLock =
    ([Event.access "/tmp/lock", Event.open_ "/tmp/lock" 321], .ok (cfgLockOnly, 3)) := rfl

theorem setup_of_parse_timed (e : Env) (c : Config)
    (h0 : e.atexitRet = 0) (h1 : ¬ e.argc < 2)
    (hp : parseOpts e Config.init e.opts = .ok c) :
    setup e =
      match openLock e c with
      | (t1, .error code) => (t1, .error code)
      | (t1, .ok fd) =>
        match armTimeout e c with
        | (t2, some code) => (t1 ++ t2, .error code)
        | (t2, none) => (t1 ++ t2, .ok (c, fd)) := by
  unfold setup
  simp [h0, h1, hp]

theorem setup_envTimedOut : setup envTimedOut =
    ([Event.access "/tmp/lock", Event.open_ "/tmp/lock" 321, Event.sigaction,
      Event.setitimer 1 500000], .ok (cfgTimedOut, 3)) := by
  have h : ¬ ((3 : ℚ) / 2 ≤ 0) := by norm_num
  have hp : parseOpts envTimedOut Config.init envTimedOut.opts = .ok cfgTimedOut := by
    simp [envTimedOut, envLockOnly, parseOpts, optStep, Config.init, h,
      itimerOf_three_halves, cfgTimedOut, cfgLockOnly, _PATH_BSHELL]
  rw [setup_of_parse_timed _ _ rfl (by decide) hp]
  rfl

theorem setup_envWouldBlockTimed : setup envWouldBlockTimed =
    ([Event.access "/tmp/lock", Event.open_ "/tmp/lock" 321, Event.sigaction,
      Event.setitimer 1 500000], .ok (cfgWouldBlockTimed, 3)) := by
  have h : ¬ ((3 : ℚ) / 2 ≤ 0) := by norm_num
  have hp : parseOpts envWouldBlockTimed Config.init envWouldBlockTimed.opts =
      .ok cfgWouldBlockTimed := by
    simp [envWouldBlockTimed, envLockOnly, parseOpts, optStep, Config.init, h,
      itimerOf_three_halves, cfgWouldBlockTimed, cfgLockOnly]
  rw [setup_of_parse_timed _ _ rfl (by decide) hp]
  rfl

theorem setup_envRestoreFails : setup envRestoreFails =
    ([Event.access "/tmp/lock", Event.open_ "/tmp/lock" 321, Event.sigaction,
      Event.setitimer 1 500000], .ok (cfgTimed, 3)) := by
  have h : ¬ ((3 : ℚ) / 2 ≤ 0) := by norm_num
  have hp : parseOpts envRestoreFails Config.init envRestoreFails.opts = .ok cfgTimed := by
    simp [envRestoreFails, envLockOnly, parseOpts, optStep, Config.init, h,
      itimerOf_three_halves, cfgTimed, cfgLockOnly]
  rw [setup_of_parse_timed _ _ rfl (by decide) hp]
  rfl

theorem setup_envTimedLock : setup envTimedLock =
    ([Event.access "/tmp/lock", Event.open_ "/tmp/lock" 321, Event.sigaction,
      Event.setitimer 1 500000], .ok (cfgTimed, 3)) := by
  have h : ¬ ((3 : ℚ) / 2 ≤ 0) := by norm_num
  have hp : parseOpts envTimedLock Config.init envTimedLock.opts = .ok cfgTimed := by
    simp [envTimedLock, envLockOnly, parseOpts, optStep, Config.init, h,
      itimerOf_three_halves, cfgTimed, cfgLockOnly]
  rw [setup_of_parse_timed _ _ rfl (by decide) hp]
  rfl

theorem setup_envTinyTimeout : setup envTinyTimeout =
    ([Event.access "/tmp/lock", Event.open_ "/tmp/lock" 321, Event.sigaction,
      Event.setitimer 0 0],
      .ok ({ cfgLockOnly with have_timeout := true, tv_sec := 0, tv_usec := 0 }, 3)) := by
  have h : ¬ ((10000000 : ℚ) ≤ 0) := by norm_num
  have ht : itimerOf (10000000 : ℚ)⁻¹ = (0, 0) := by
    rw [← one_div]; exact itimerOf_tenth_of_microsecond
  have hp : parseOpts envTinyTimeout Config.init envTinyTimeout.opts =
      .ok { cfgLockOnly with have_timeout := true, tv_sec := 0, tv_usec := 0 } := by
    simp [envTinyTimeout, envLockOnly, parseOpts, optStep, Config.init, h, ht, cfgLockOnly]
  rw [setup_of_parse_timed _ _ rfl (by decide) hp]
  rfl

theorem main_term_of_wait (e : Env) (t : List Event) (c : Config) (fd : Int)
    (argv : List String) (w : Int) (ws : Nat)
    (hs : setup e = (t, .ok (c, fd)))
    (hacq : (acquire fd (c.type ||| c.block) e.flocks).2 = LoopExit.acquired)
    (hdis : (disarm e c).2 = none) (hcmd : c.cmd_argv = some argv)
    (hfork : 0 < e.forkRet)
    (hw : (waitLoop e.forkRet 0 e.waits).2 = some (w, ws)) :
    (main e).term = Term.exit (childStatus w ws) := by
  have h1 : ¬ (e.forkRet < 0) := by omega
  have h2 : ¬ (e.forkRet = 0) := by omega
  rw [main_of_setup e t c fd hs]
  simp [lockAndRun, hacq, Run.after, afterLock_of_disarm e c hdis, supervise, hcmd, h1, h2, hw]

/-! ## Options that the switch does not act on -/

/-- Claim C2.  When the acquisition ends because a lock attempt reports
`EWOULDBLOCK` (WouldBlock) or reports `EINTR` with `timeout_expired` set
(TimedOut), every earlier attempt having been a spurious interruption, `main`
exits with `status_time_conflict`, which is `EXIT_FAILURE`, in both cases, and
its trace holds none of `signal`, `fork`, `execvp`, `waitpid`, whatever the
command in the configuration. -/
theorem C2_conflict_exit_without_child (e : Env) (t : List Event) (c : Config) (fd : Int)
    (pre : List Attempt) (a : Attempt) (rest : List Attempt)
    (hs : setup e = (t, .ok (c, fd)))
    (hf : e.flocks = pre ++ a :: rest) (hpre : ∀ x ∈ pre, x.spurious)
    (ha : a.ret ≠ 0)
    (hc : a.errno = EWOULDBLOCK ∨ (a.errno = EINTR ∧ a.expired = true)) :
    (main e).term = Term.exit status_time_conflict ∧
      status_time_conflict = EXIT_FAILURE ∧
      (∀ ev ∈ (main e).trace, ev.isChildOp = false) ∧
      ((acquire fd (c.type ||| c.block) e.flocks).2 = LoopExit.wouldBlock ∨
        (acquire fd (c.type ||| c.block) e.flocks).2 = LoopExit.timedOut) := by
  have hst := setup_trace e t c fd hs
  rw [main_of_setup e t c fd hs]
  rcases hc with hc | ⟨hc, hx⟩
  · have h1 : acquire fd (c.type ||| c.block) (a :: rest) =
        ([Event.flock fd (c.type ||| c.block)], LoopExit.wouldBlock) := by
      simp [acquire, ha, hc]
    have h2 := acquire_skip_last fd (c.type ||| c.block) pre a rest hpre (by rw [h1])
    rw [h1] at h2
    refine ⟨?_, rfl, ?_, ?_⟩
    · simp [lockAndRun, Run.after, hf, h2]
    · intro ev hev
      simp only [lockAndRun, Run.after, hf, h2, List.mem_append] at hev
      rcases hev with hev | hev
      · exact (hst ev hev).1
      · rw [List.eq_of_mem_replicate hev]; rfl
    · left; rw [hf, h2]
  · have h1 : acquire fd (c.type ||| c.block) (a :: rest) =
        ([Event.flock fd (c.type ||| c.block)], LoopExit.timedOut) := by
      simp [acquire, ha, hc, hx, EINTR, EWOULDBLOCK]
    have h2 := acquire_skip_last fd (c.type ||| c.block) pre a rest hpre (by rw [h1])
    rw [h1] at h2
    refine ⟨?_, rfl, ?_, ?_⟩
    · simp [lockAndRun, Run.after, hf, h2]
    · intro ev hev
      simp only [lockAndRun, Run.after, hf, h2, List.mem_append] at hev
      rcases hev with hev | hev
      · exact (hst ev hev).1
      · rw [List.eq_of_mem_replicate hev]; rfl
    · right; rw [hf, h2]

/-- Claim C3.  For every finite sequence of lock-attempt results, the loop
ends in TimedOut exactly when some attempt fails with `EINTR` while
`timeout_expired` is set and every earlier attempt failed with `EINTR` while
it was clear.  An attempt that fails with `EINTR` while the flag is clear,
reached through such attempts only, is followed by another `flock` call with
the same descriptor and operation (`type | block`), and the loop ends the way
it ends on the remaining results. -/
theorem C3_timed_out_iff_interrupted_and_expired (fd : Int) (op : Nat) (l : List Attempt) :
    ((acquire fd op l).2 = LoopExit.timedOut ↔
      ∃ pre a rest, l = pre ++ a :: rest ∧
        (∀ x ∈ pre, x.ret ≠ 0 ∧ x.errno = EINTR ∧ x.expired = false) ∧
        a.ret ≠ 0 ∧ a.errno = EINTR ∧ a.expired = true) ∧
    (∀ pre a rest, l = pre ++ a :: rest →
      (∀ x ∈ pre, x.ret ≠ 0 ∧ x.errno = EINTR ∧ x.expired = false) →
      a.ret ≠ 0 → a.errno = EINTR → a.expired = false →
      (∃ tail, (acquire fd op l).1 =
          List.replicate (pre.length + 2) (Event.flock fd op) ++ tail) ∧
        (acquire fd op l).2 = (acquire fd op rest).2 ∧
        ((acquire fd op l).2 = LoopExit.timedOut →
          ∃ b ∈ rest, b.errno = EINTR ∧ b.expired = true)) := by
  refine ⟨acquire_timedOut_iff fd op l, ?_⟩
  intro pre a rest hl hpre h1 h2 h3
  have hall : ∀ x ∈ pre ++ [a], x.spurious := by
    intro x hx
    rcases List.mem_append.mp hx with hx | hx
    · exact hpre x hx
    · rw [List.mem_singleton.mp hx]; exact ⟨h1, h2, h3⟩
  have hl' : l = (pre ++ [a]) ++ rest := by simp [hl]
  have key := acquire_spurious_append fd op (pre ++ [a]) rest hall
  rw [← hl'] at key
  obtain ⟨tail, ht⟩ := acquire_trace_head fd op rest
  refine ⟨⟨tail, ?_⟩, ?_, ?_⟩
  · rw [key]
    simp only [ht, List.length_append, List.length_singleton]
    rw [List.replicate_succ' (pre.length + 1)]
    simp
  · rw [key]
  · intro hto
    rw [key] at hto
    obtain ⟨p, b, r, hr, _, _, hb2, hb3⟩ := (acquire_timedOut_iff fd op rest).mp hto
    exact ⟨b, by simp [hr], hb2, hb3⟩

/-- Claim C4.  For a non-blocking request (`block = LOCK_NB`), when a lock
attempt reports `EWOULDBLOCK`, every earlier attempt having been a spurious
interruption, the loop ends at once in WouldBlock and `main` exits with the
conflict status: that attempt is the last `flock` call of the run, whatever
the value of `timeout_expired`, whatever results would follow, and whether or
not a timeout is configured. -/
theorem C4_would_block_ends_at_once (e : Env) (t : List Event) (c : Config) (fd : Int)
    (pre : List Attempt) (a : Attempt) (rest : List Attempt)
    (hs : setup e = (t, .ok (c, fd))) (hnb : c.block = LOCK_NB)
    (hf : e.flocks = pre ++ a :: rest) (hpre : ∀ x ∈ pre, x.spurious)
    (ha : a.ret ≠ 0) (hc : a.errno = EWOULDBLOCK) :
    acquire fd (c.type ||| LOCK_NB) e.flocks =
        (List.replicate (pre.length + 1) (Event.flock fd (c.type ||| LOCK_NB)),
          LoopExit.wouldBlock) ∧
      main e = ⟨Term.exit status_time_conflict,
        t ++ List.replicate (pre.length + 1) (Event.flock fd (c.type ||| LOCK_NB))⟩ ∧
      (∀ ev ∈ t, ev.isFlock = false) := by
  have h1 : acquire fd (c.type ||| LOCK_NB) (a :: rest) =
      ([Event.flock fd (c.type ||| LOCK_NB)], LoopExit.wouldBlock) := by
    simp [acquire, ha, hc]
  have h2 := acquire_skip_last fd (c.type ||| LOCK_NB) pre a rest hpre (by rw [h1])
  rw [h1] at h2
  refine ⟨by rw [hf, h2], ?_, fun ev hev => (setup_trace e t c fd hs ev hev).2⟩
  rw [main_of_setup e t c fd hs]
  simp [lockAndRun, Run.after, hf, hnb, h2]

/-- Claim C1.  When the lock loop is left with the lock held, the timer (if
any) is restored, a command is configured, `fork` returns the child's process
id and the wait loop collects that child with wait status `ws`, the exit
status of `main` is decoded from `ws`: it is `code` when the child exited with
`code` in 0..255, and `128 + s` when the child was killed by signal `s` (any
signal number from 1 to 126, with or without a core dump). -/
theorem C1_exit_status_from_wait_status (e : Env) (t : List Event) (c : Config) (fd : Int)
    (argv : List String) (ws : Nat)
    (hs : setup e = (t, .ok (c, fd)))
    (hacq : (acquire fd (c.type ||| c.block) e.flocks).2 = LoopExit.acquired)
    (hdis : (disarm e c).2 = none) (hcmd : c.cmd_argv = some argv)
    (hfork : 0 < e.forkRet)
    (hw : (waitLoop e.forkRet 0 e.waits).2 = some (e.forkRet, ws)) :
    (∀ code : Nat, code < 256 → ws = W_EXITCODE code 0 →
        (main e).term = Term.exit code) ∧
      (∀ (s : Nat) (core : Bool), 1 ≤ s → s ≤ 126 → ws = W_SIGNALED s core →
        (main e).term = Term.exit (128 + s)) := by
  have hm := main_term_of_wait e t c fd argv e.forkRet ws hs hacq hdis hcmd hfork hw
  have hne : ¬ (e.forkRet = -1) := by omega
  simp only [childStatus, hne, if_false] at hm
  constructor
  · intro code hc hws
    rw [hm, hws, decodeStatus_exited code hc]
  · intro s core h1 h2 hws
    rw [hm, hws, decodeStatus_signaled s core h1 h2]

/-- Witness of claim C1: exit code 7 gives 7 and signal 9 gives 137. -/
theorem C1_exit_status_from_wait_status_witness :
    (main envExit7).term = Term.exit 7 ∧ (main envKill9).term = Term.exit 137 :=
  ⟨(C1_exit_status_from_wait_status envExit7 _ cfgExit7 3 ["/bin/sh", "-c", "exit 7"]
      (W_EXITCODE 7 0) setup_envExit7 rfl rfl rfl (by decide) rfl).1 7 (by decide) rfl,
   (C1_exit_status_from_wait_status envKill9 _ cfgKill9 3 ["/bin/sh", "-c", "sleep 60"]
      (W_SIGNALED 9 false) setup_envKill9 rfl rfl rfl (by decide) rfl).2 9 false
      (by decide) (by decide) rfl⟩

/-- Witness of claim C2: a non-blocking run against a held lock, and a run
whose second attempt is interrupted by the timer, both exit with status 1 and
make no call of the child supervisor. -/
theorem C2_conflict_exit_without_child_witness :
    ((main envWouldBlock).term = Term.exit 1 ∧
        ∀ ev ∈ (main envWouldBlock).trace, ev.isChildOp = false) ∧
      ((main envTimedOut).term = Term.exit 1 ∧
        ∀ ev ∈ (main envTimedOut).trace, ev.isChildOp = false) :=
    by
  have h1 := C2_conflict_exit_without_child envWouldBlock _ cfgWouldBlock 3 []
    ⟨-1, EWOULDBLOCK, false⟩ [] setup_envWouldBlock rfl (by simp) (by decide) (Or.inl rfl)
  have h2 := C2_conflict_exit_without_child envTimedOut _ cfgTimedOut 3
    [⟨-1, EINTR, false⟩] ⟨-1, EINTR, true⟩ [] setup_envTimedOut rfl (by decide)
    (by decide) (Or.inr ⟨rfl, rfl⟩)
  exact ⟨⟨h1.1, h1.2.2.1⟩, ⟨h2.1, h2.2.2.1⟩⟩

/-- Witness of claim C3: on the results interrupted (flag clear), interrupted
(flag set) the loop ends in TimedOut after two calls, and the attempt that was
interrupted with the flag clear is followed by a second `flock` call. -/
theorem C3_timed_out_iff_interrupted_and_expired_witness :
    (acquire 3 LOCK_EX [⟨-1, EINTR, false⟩, ⟨-1, EINTR, true⟩]).2 = LoopExit.timedOut ∧
      ∃ tail, (acquire 3 LOCK_EX [⟨-1, EINTR, false⟩, ⟨-1, EINTR, true⟩]).1 =
        List.replicate 2 (Event.flock 3 LOCK_EX) ++ tail :=
    by
  have h := C3_timed_out_iff_interrupted_and_expired 3 LOCK_EX
    [⟨-1, EINTR, false⟩, ⟨-1, EINTR, true⟩]
  exact ⟨h.1.mpr
      ⟨[⟨-1, EINTR, false⟩], ⟨-1, EINTR, true⟩, [], rfl, by decide, by decide, rfl, rfl⟩,
    (h.2 [] ⟨-1, EINTR, false⟩ [⟨-1, EINTR, true⟩] rfl (by simp) (by decide) rfl rfl).1⟩

/-- Witness of claim C4: a non-blocking request with a timeout armed, the
flag set and a further successful result in the script ends after one
attempt. -/
theorem C4_would_block_ends_at_once_witness :
    main envWouldBlockTimed =
      ⟨Term.exit status_time_conflict,
        [Event.access "/tmp/lock", Event.open_ "/tmp/lock" 321, Event.sigaction,
          Event.setitimer 1 500000] ++
        List.replicate 1 (Event.flock 3 (LOCK_EX ||| LOCK_NB))⟩ :=
  (C4_would_block_ends_at_once envWouldBlockTimed _ cfgWouldBlockTimed 3 []
    ⟨-1, EWOULDBLOCK, true⟩ [⟨0, 0, true⟩] setup_envWouldBlockTimed rfl rfl (by simp)
    (by decide) rfl).2.1

/-- Counterexample to claim C5 as stated: `flock -x` locks descriptor `-1`,
`flock(2)` fails with `EBADF`, which is neither `EWOULDBLOCK` nor `EINTR`,
and `main` exits with `EX_DATAERR` (65), not with `EX_OSERR` (71). -/
theorem C5_counterexample_ebadf_exits_dataerr :
    setup envBadFd = ([], .ok (cfgBadFd, -1)) ∧
      envBadFd.flocks = [⟨-1, EBADF, false⟩] ∧
      EBADF ≠ EWOULDBLOCK ∧ EBADF ≠ EINTR ∧
      main envBadFd = ⟨Term.exit EX_DATAERR, [Event.flock (-1) LOCK_EX, Event.printf]⟩ ∧
      EX_DATAERR ≠ EX_OSERR := by
  refine ⟨rfl, rfl, by decide, by decide, by decide, by decide⟩

/-- Claim C5, amended.  When a lock attempt fails with an error code other
than `EWOULDBLOCK` and `EINTR`, every earlier attempt having been a spurious
interruption, the loop ends without another attempt; `main` exits with
`EX_OSERR` when the code is `EIO` or `ENOLCK` and with `EX_DATAERR` for every
other code. -/
theorem C5_other_errors_end_the_loop (e : Env) (t : List Event) (c : Config) (fd : Int)
    (pre : List Attempt) (a : Attempt) (rest : List Attempt)
    (hs : setup e = (t, .ok (c, fd)))
    (hf : e.flocks = pre ++ a :: rest) (hpre : ∀ x ∈ pre, x.spurious)
    (ha : a.ret ≠ 0) (h1 : a.errno ≠ EWOULDBLOCK) (h2 : a.errno ≠ EINTR) :
    main e =
        ⟨Term.exit (if a.errno = EIO ∨ a.errno = ENOLCK then EX_OSERR else EX_DATAERR),
          t ++ List.replicate (pre.length + 1) (Event.flock fd (c.type ||| c.block)) ++
            (if a.errno = EIO ∨ a.errno = ENOLCK then [] else [Event.printf])⟩ ∧
      (∀ ev ∈ t, ev.isFlock = false) ∧
      (acquire fd (c.type ||| c.block) e.flocks).2 =
        (if a.errno = EIO ∨ a.errno = ENOLCK then LoopExit.osError else LoopExit.dataError) := by
  have key := acquire_spurious_append fd (c.type ||| c.block) pre (a :: rest) hpre
  refine ⟨?_, fun ev hev => (setup_trace e t c fd hs ev hev).2, ?_⟩
  · rw [main_of_setup e t c fd hs]
    by_cases hio : a.errno = EIO ∨ a.errno = ENOLCK
    · simp [lockAndRun, Run.after, hf, key, acquire, ha, h1, h2, hio, List.replicate_succ']
    · simp [lockAndRun, Run.after, hf, key, acquire, ha, h1, h2, hio, List.replicate_succ']
  · rw [hf, key]
    by_cases hio : a.errno = EIO ∨ a.errno = ENOLCK
    · simp [acquire, ha, h1, h2, hio]
    · simp [acquire, ha, h1, h2, hio]

/-- Witness of claim C5, amended: `ENOLCK` after one spurious interruption
exits with `EX_OSERR`, `EBADF` exits with `EX_DATAERR`. -/
theorem C5_other_errors_end_the_loop_witness :
    (main envNoLock).term = Term.exit EX_OSERR ∧
      (main envBadFd).term = Term.exit EX_DATAERR :=
  ⟨congrArg Run.term
      (C5_other_errors_end_the_loop envNoLock _ cfgLockOnly 3 [⟨-1, EINTR, false⟩]
        ⟨-1, ENOLCK, false⟩ [] setup_envNoLock rfl (by decide) (by decide) (by decide)
        (by decide)).1,
   congrArg Run.term
      (C5_other_errors_end_the_loop envBadFd _ cfgBadFd (-1) [] ⟨-1, EBADF, false⟩ []
        setup_envBadFd rfl (by simp) (by decide) (by decide) (by decide)).1⟩

/-- Claim C6, evaluated at the failing input.  With the lock held and a
command configured, `fork` succeeds and `waitpid` fails with `ECHILD`, an
error other than an interruption: `main` exits with `EXIT_FAILURE`, which is
the conflict status of WouldBlock and TimedOut and is not `EX_OSERR`. -/
theorem C6_wait_failure_exits_with_conflict_status :
    main envWaitFails =
        ⟨Term.exit EXIT_FAILURE,
          [Event.access "/tmp/lock", Event.open_ "/tmp/lock" 321, Event.flock 3 LOCK_EX,
            Event.signalChld, Event.fork, Event.waitpid 100]⟩ ∧
      envWaitFails.waits = [⟨-1, ECHILD, 0⟩] ∧ ECHILD ≠ EINTR ∧
      EXIT_FAILURE = status_time_conflict ∧ EXIT_FAILURE ≠ EX_OSERR := by
  refine ⟨by decide, rfl, by decide, rfl, by decide⟩

/-- The sibling failure of a failed wait, a failed `fork`, does exit with
`EX_OSERR`, and `EX_OSERR` differs from the conflict status. -/
theorem supervise_fork_failure (e : Env) (c : Config) (argv : List String)
    (hcmd : c.cmd_argv = some argv) (hfork : e.forkRet < 0) :
    supervise e c = ⟨Term.exit EX_OSERR, [Event.signalChld, Event.fork]⟩ ∧
      EX_OSERR ≠ status_time_conflict := by
  refine ⟨by simp [supervise, hcmd, hfork], by decide⟩

/-- Counterexample to claim C7 as stated: with a timeout of 1.5 s armed and
the first lock attempt successful, no command requested, a failing restore of
the previous interval timer makes `main` exit with `EX_OSERR`, not 0. -/
theorem C7_counterexample_restore_failure :
    setup envRestoreFails =
        ([Event.access "/tmp/lock", Event.open_ "/tmp/lock" 321, Event.sigaction,
          Event.setitimer 1 500000], .ok (cfgTimed, 3)) ∧
      envRestoreFails.flocks = [⟨0, 0, false⟩] ∧ cfgTimed.cmd_argv = none ∧
      (main envRestoreFails).term = Term.exit EX_OSERR ∧ EX_OSERR ≠ 0 := by
  refine ⟨setup_envRestoreFails, rfl, rfl, ?_, by decide⟩
  rw [main_of_setup _ _ _ _ setup_envRestoreFails]
  rfl

/-- Claim C7, amended.  For every configuration with which the lock loop is
entered (shared or exclusive, blocking or not, no timeout or a timeout whose
arming succeeded), if the first lock attempt succeeds the loop ends in
Acquired after that one attempt, whatever the value of `timeout_expired`;
and when no command was requested and, in case a timeout was configured,
restoring the previous timer and handler succeeds, `main` exits with status
0. -/
theorem C7_first_attempt_success_acquires (e : Env) (t : List Event) (c : Config) (fd : Int)
    (a : Attempt) (rest : List Attempt)
    (hs : setup e = (t, .ok (c, fd)))
    (hf : e.flocks = a :: rest) (ha : a.ret = 0) :
    acquire fd (c.type ||| c.block) e.flocks =
        ([Event.flock fd (c.type ||| c.block)], LoopExit.acquired) ∧
      (c.cmd_argv = none →
        (c.have_timeout = true → e.restoreTimerRet = 0 ∧ e.restoreSigactionRet = 0) →
        (main e).term = Term.exit EX_OK ∧ EX_OK = 0) := by
  have hacq : acquire fd (c.type ||| c.block) e.flocks =
      ([Event.flock fd (c.type ||| c.block)], LoopExit.acquired) := by
    simp [hf, acquire, ha]
  refine ⟨hacq, ?_⟩
  intro hcmd hres
  have hdis := disarm_none_of_restored e c hres
  refine ⟨?_, rfl⟩
  rw [main_of_setup e t c fd hs]
  simp [lockAndRun, hacq, Run.after, afterLock_of_disarm e c hdis, supervise, hcmd]

/-- Witness of claim C7, amended: a lock-only run with a timeout armed, the
flag set when `flock` returns, every call succeeding. -/
theorem C7_first_attempt_success_acquires_witness :
    (acquire 3 (LOCK_EX ||| 0) envTimedLock.flocks).2 = LoopExit.acquired ∧
      (main envTimedLock).term = Term.exit EX_OK :=
    by
  have h := C7_first_attempt_success_acquires envTimedLock _ cfgTimed 3 ⟨0, 0, true⟩ []
    setup_envTimedLock rfl rfl
  exact ⟨congrArg Prod.snd h.1, (h.2 rfl (fun _ => ⟨rfl, rfl⟩)).1⟩

/-- Claim C9.  With a command configured and `fork` returning the child's
process id `f > 0`, let every result of a list `pre` of waits be neither `f`
nor a failure with an error other than `EINTR`.  If the next result `r` is
`f` or such a failure, the parent calls `waitpid` exactly `pre.length + 1`
times and ends there: with the status decoded from the wait status of `r`
when `r` returned `f`, and with `err(EXIT_FAILURE, ...)`, nothing decoded,
otherwise.  If the script ends after `pre`, the parent is inside one more
`waitpid`.  A wait that fails with `EINTR` is never a result on which the loop
stops. -/
theorem C9_wait_loop_stops_at_first_final_result (e : Env) (c : Config) (argv : List String)
    (pre : List WaitRes)
    (hcmd : c.cmd_argv = some argv) (hfork : 0 < e.forkRet)
    (hpre : ∀ x ∈ pre, x.w ≠ e.forkRet ∧ ¬ (x.w = -1 ∧ x.errno ≠ EINTR)) :
    (∀ (r : WaitRes) (rest : List WaitRes), e.waits = pre ++ r :: rest →
        (r.w = e.forkRet ∨ (r.w = -1 ∧ r.errno ≠ EINTR)) →
        supervise e c =
          ⟨Term.exit (if r.w = e.forkRet then decodeStatus r.wstatus else EXIT_FAILURE),
            [Event.signalChld, Event.fork] ++
              List.replicate (pre.length + 1) (Event.waitpid e.forkRet)⟩) ∧
      (e.waits = pre →
        supervise e c =
          ⟨Term.blocked,
            [Event.signalChld, Event.fork] ++
              List.replicate (pre.length + 1) (Event.waitpid e.forkRet)⟩) ∧
      (∀ x : WaitRes, x.w = -1 → x.errno = EINTR →
        x.w ≠ e.forkRet ∧ ¬ (x.w = -1 ∧ x.errno ≠ EINTR)) := by
  have h1 : ¬ (e.forkRet < 0) := by omega
  have h2 : ¬ (e.forkRet = 0) := by omega
  refine ⟨?_, ?_, ?_⟩
  · intro r rest hw hr
    obtain ⟨st', hskip⟩ := waitLoop_skip_append e.forkRet pre (r :: rest) hpre 0
    obtain ⟨s, hstop, hs⟩ := waitLoop_stop e.forkRet hfork st' r rest hr
    rw [hstop] at hskip
    have h3 : ¬ (e.forkRet = -1) := by omega
    have h4 : ¬ (-1 = e.forkRet) := by omega
    by_cases hrf : r.w = e.forkRet
    · simp [supervise, hcmd, h1, h2, h3, hw, hskip, childStatus, hrf, hs hrf,
        List.replicate_succ']
    · have hm : r.w = -1 := by
        rcases hr with hr | hr
        · exact absurd hr hrf
        · exact hr.1
      simp [supervise, hcmd, h1, h2, h4, hw, hskip, childStatus, hm,
        List.replicate_succ']
  · intro hw
    obtain ⟨st', hskip⟩ := waitLoop_skip_append e.forkRet pre [] hpre 0
    rw [List.append_nil] at hskip
    simp [supervise, hcmd, h1, h2, hw, hskip, waitLoop, List.replicate_succ']
  · intro x hx1 hx2
    exact ⟨by omega, fun h => h.2 hx2⟩

/-- Witness of claim C9: the first wait is interrupted, the second returns
the child 100 with the wait status of exit code 7. -/
theorem C9_wait_loop_stops_at_first_final_result_witness :
    supervise envExit7 cfgExit7 =
      ⟨Term.exit (if (100 : Int) = 100 then decodeStatus (W_EXITCODE 7 0) else EXIT_FAILURE),
        [Event.signalChld, Event.fork] ++ List.replicate 2 (Event.waitpid 100)⟩ :=
  (C9_wait_loop_stops_at_first_final_result envExit7 cfgExit7 ["/bin/sh", "-c", "exit 7"]
    [⟨-1, EINTR, 0⟩] rfl (by decide) (by decide)).1 ⟨100, 0, W_EXITCODE 7 0⟩ [] rfl
    (Or.inl rfl)

/-- Claim C10, evaluated at the failing input.  The timeout 0.0000001 is
strictly positive, so `-w` accepts it, yet both fields of the timer value are
0: `setitimer` is called with a zero duration, which arms nothing, and
against a lock that stays held the run blocks in `flock`. -/
theorem C10_submicrosecond_timeout_arms_zero :
    (0 : ℚ) < 1 / 10000000 ∧ itimerOf (1 / 10000000) = (0, 0) ∧
      main envTinyTimeout =
        ⟨Term.blocked,
          [Event.access "/tmp/lock", Event.open_ "/tmp/lock" 321, Event.sigaction,
            Event.setitimer 0 0, Event.flock 3 LOCK_EX]⟩ := by
  refine ⟨by norm_num, itimerOf_tenth_of_microsecond, ?_⟩
  rw [main_of_setup _ _ _ _ setup_envTinyTimeout]
  rfl

end Flock
